import Mathlib

/-!
# InertialNav: the `estimator.h` interface of the 24-state attitude/position EKF

A shallow embedding of `src/code/estimator.h`.

Conventions of the embedding.

* A `float` object (a member of `AttPosEKF`, a caller's buffer) holds a value
  of type `Flt`: a finite value (a rational), one of the two infinities, or NaN.
* A literal assigned to a `float` member is converted to binary32 with
  round-to-nearest-even (`toFloat`); a literal without the `f` suffix is a
  `double` and is first rounded to binary64 (`toDouble`).  The member holds the
  rounded value, not the decimal.
* The constants introduced with `#define` are kept as the exact decimals they
  are written as (rationals); the statements about them read them so.
* Unsigned machine integers are natural numbers; a store into an object of
  width `w` reduces the value modulo `2 ^ w`.
* The header declares `StoreStates` and `RecallStates` but does not define
  them; their bodies are modelled from the specification and marked so.
-/

namespace InertialNav

/-! ## Constants (estimator.h, lines 6-12 and 48-50) -/

/-- Standard gravity, `#define GRAVITY_MSS 9.80665f`. -/
def GRAVITY_MSS : ℚ := 9.80665

/-- Degrees to radians, `#define deg2rad 0.017453292f`. -/
def deg2rad : ℚ := 0.017453292

/-- Radians to degrees, `#define rad2deg 57.295780f`. -/
def rad2deg : ℚ := 57.295780

/-- The constant `#define pi 3.141592657f`. -/
def pi : ℚ := 3.141592657

/-- Earth rotation rate, `#define earthRate 0.000072921f`. -/
def earthRate : ℚ := 0.000072921

/-- Earth radius, `#define earthRadius 6378145.0f`. -/
def earthRadius : ℚ := 6378145.0

/-- Reciprocal earth radius, `#define earthRadiusInv  1.5678540e-7f`. -/
def earthRadiusInv : ℚ := 1.5678540e-7

/-- Number of filter states, `const unsigned int n_states = 24;`. -/
def n_states : Nat := 24

/-- Length of a stored history entry, `const unsigned int n_storedStates = 27;`. -/
def n_storedStates : Nat := 27

/-- Number of slots of the history ring, `const unsigned int data_buffer_size = 50;`. -/
def data_buffer_size : Nat := 50

/-! ## Values of type `float` -/

/-- The value held by a `float` object: finite, plus or minus infinity, or NaN. -/
inductive Flt where
  | fin (q : ℚ)
  | pinf
  | ninf
  | nan
  deriving DecidableEq

/-- The classification `isfinite` of `math.h`: neither an infinity nor NaN. -/
def isfinite : Flt → Bool
  | Flt.fin _ => true
  | _ => false

/-! ## Conversion of a literal to a binary floating-point value -/

/-- The comparison `n / d < 2 ^ k` for naturals `n`, `d` and an integer `k`. -/
def belowPow2 (n d : ℕ) (k : ℤ) : Bool :=
  if 0 ≤ k then decide (n < d * 2 ^ k.toNat) else decide (n * 2 ^ (-k).toNat < d)

/-- The exponent of the unit in the last place of `n / d` for a significand of
`p` bits: the least `e`, searched upwards from the start value (the exponent of
the smallest subnormal), with `n / d < 2 ^ (p + e)`. -/
def ulpExp (p : ℕ) (n d : ℕ) : ℕ → ℤ → ℤ
  | 0, e => e
  | fuel + 1, e => if belowPow2 n d ((p : ℤ) + e) then e else ulpExp p n d fuel (e + 1)

/-- The quotient `N / D` rounded to the nearest natural, ties to even. -/
def roundHalfEven (N D : ℕ) : ℕ :=
  if 2 * (N % D) < D then N / D
  else if D < 2 * (N % D) then N / D + 1
  else if (N / D) % 2 = 0 then N / D else N / D + 1

/-- The integer significand of `n / d` at unit-in-the-last-place `2 ^ e`. -/
def mantissa (n d : ℕ) (e : ℤ) : ℕ :=
  roundHalfEven (n * 2 ^ (-e).toNat) (d * 2 ^ e.toNat)

/-- Round-to-nearest-even of a rational to the binary format with `p`
significand bits and least normal exponent `emin`; `fuel` bounds the exponent
search. -/
def roundBinary (p : ℕ) (emin : ℤ) (fuel : ℕ) (q : ℚ) : ℚ :=
  mkRat
    (q.num.sign *
      ((mantissa q.num.natAbs q.den
          (ulpExp p q.num.natAbs q.den fuel (emin - ((p : ℤ) - 1))) *
        2 ^ (ulpExp p q.num.natAbs q.den fuel (emin - ((p : ℤ) - 1))).toNat : ℕ) : ℤ))
    (2 ^ (-(ulpExp p q.num.natAbs q.den fuel (emin - ((p : ℤ) - 1)))).toNat)

/-- The value of a `double` literal: rounding to binary64 (53 bits, least
normal exponent -1022).  The literals of the header are far from the overflow
threshold of binary64. -/
def toDouble (q : ℚ) : ℚ := roundBinary 53 (-1022) 2200 q

/-- The value of a `float` literal, or of a `double` converted to `float`:
rounding to binary32 (24 bits, least normal exponent -126), with overflow to an
infinity. -/
def toFloat (q : ℚ) : Flt :=
  if (2 : ℚ) ^ 128 ≤ roundBinary 24 (-126) 300 q then Flt.pinf
  else if roundBinary 24 (-126) 300 q ≤ -(2 : ℚ) ^ 128 then Flt.ninf
  else Flt.fin (roundBinary 24 (-126) 300 q)

/-- The class `Vector3f` (estimator.h, lines 14-24): three `float` members. -/
structure Vector3f where
  x : Flt
  y : Flt
  z : Flt

/-! ## Declared array shapes (estimator.h, lines 58-72 and 157-207) -/

/-- Element types of the fixed-size arrays declared in the header. -/
inductive ElemType where
  | float
  | uint32_t
  deriving DecidableEq

/-- A fixed-size array declaration `elem name[d1][d2]...`. -/
structure ArrayDecl where
  elem : ElemType
  dims : List Nat
  deriving DecidableEq

/-- Number of elements of a declared array. -/
def ArrayDecl.count (a : ArrayDecl) : Nat := a.dims.prod

/-- Size in bytes of a declared array, for a given size of each element type. -/
def ArrayDecl.bytes (sizeof : ElemType → Nat) (a : ArrayDecl) : Nat :=
  sizeof a.elem * a.count

namespace Layout

/-- Declaration `float KH[n_states][n_states];`. -/
def KH : ArrayDecl := ⟨ElemType.float, [n_states, n_states]⟩

/-- Declaration `float KHP[n_states][n_states];`. -/
def KHP : ArrayDecl := ⟨ElemType.float, [n_states, n_states]⟩

/-- Declaration `float P[n_states][n_states];`. -/
def P : ArrayDecl := ⟨ElemType.float, [n_states, n_states]⟩

/-- Declaration `float Kfusion[n_states];`. -/
def Kfusion : ArrayDecl := ⟨ElemType.float, [n_states]⟩

/-- Declaration `float states[n_states];`. -/
def states : ArrayDecl := ⟨ElemType.float, [n_states]⟩

/-- Declaration `float storedStates[n_storedStates][data_buffer_size];`. -/
def storedStates : ArrayDecl := ⟨ElemType.float, [n_storedStates, data_buffer_size]⟩

/-- Declaration `uint32_t statetimeStamp[data_buffer_size];`. -/
def statetimeStamp : ArrayDecl := ⟨ElemType.uint32_t, [data_buffer_size]⟩

/-- Declaration `float statesAtVelTime[n_storedStates];`. -/
def statesAtVelTime : ArrayDecl := ⟨ElemType.float, [n_storedStates]⟩

/-- Declaration `float statesAtPosTime[n_storedStates];`. -/
def statesAtPosTime : ArrayDecl := ⟨ElemType.float, [n_storedStates]⟩

/-- Declaration `float statesAtHgtTime[n_storedStates];`. -/
def statesAtHgtTime : ArrayDecl := ⟨ElemType.float, [n_storedStates]⟩

/-- Declaration `float statesAtMagMeasTime[n_storedStates];`. -/
def statesAtMagMeasTime : ArrayDecl := ⟨ElemType.float, [n_storedStates]⟩

/-- Declaration `float statesAtVtasMeasTime[n_storedStates];`. -/
def statesAtVtasMeasTime : ArrayDecl := ⟨ElemType.float, [n_storedStates]⟩

/-- Declaration `float statesAtRngTime[n_storedStates];`. -/
def statesAtRngTime : ArrayDecl := ⟨ElemType.float, [n_storedStates]⟩

/-- Declaration `float statesAtLosMeasTime[n_storedStates];`. -/
def statesAtLosMeasTime : ArrayDecl := ⟨ElemType.float, [n_storedStates]⟩

/-- Declaration `float delAngForFusion[3];`. -/
def delAngForFusion : ArrayDecl := ⟨ElemType.float, [3]⟩

/-- Declaration `float innovVelPos[6];`. -/
def innovVelPos : ArrayDecl := ⟨ElemType.float, [6]⟩

/-- Declaration `float varInnovVelPos[6];`. -/
def varInnovVelPos : ArrayDecl := ⟨ElemType.float, [6]⟩

/-- Declaration `float velNED[3];`. -/
def velNED : ArrayDecl := ⟨ElemType.float, [3]⟩

/-- Declaration `float posNE[2];`. -/
def posNE : ArrayDecl := ⟨ElemType.float, [2]⟩

/-- Declaration `float posNED[3];`. -/
def posNED : ArrayDecl := ⟨ElemType.float, [3]⟩

/-- Declaration `float innovMag[3];`. -/
def innovMag : ArrayDecl := ⟨ElemType.float, [3]⟩

/-- Declaration `float varInnovMag[3];`. -/
def varInnovMag : ArrayDecl := ⟨ElemType.float, [3]⟩

/-- Declaration `float varInnovLOS[2];`. -/
def varInnovLOS : ArrayDecl := ⟨ElemType.float, [2]⟩

/-- Declaration `float innovLOS[2];`. -/
def innovLOS : ArrayDecl := ⟨ElemType.float, [2]⟩

/-- Declaration `float losData[2];`. -/
def losData : ArrayDecl := ⟨ElemType.float, [2]⟩

/-- Declaration `float losPred[2];`. -/
def losPred : ArrayDecl := ⟨ElemType.float, [2]⟩

/-- Member `float states[n_states];` of `struct ekf_status_report`. -/
def ekf_status_report_states : ArrayDecl := ⟨ElemType.float, [n_states]⟩

/-- The seven recall buffers `statesAt*`, in declaration order. -/
def statesAtBuffers : List ArrayDecl :=
  [statesAtVelTime, statesAtPosTime, statesAtHgtTime, statesAtMagMeasTime,
   statesAtVtasMeasTime, statesAtRngTime, statesAtLosMeasTime]

/-- Every fixed-size array that is a member of `AttPosEKF`, in declaration
order, followed by the `states` array of its two `ekf_status_report` members
(`current_ekf_state`, `last_ekf_error`). -/
def fixedArrays : List ArrayDecl :=
  [KH, KHP, P, Kfusion, states, storedStates, statetimeStamp] ++ statesAtBuffers ++
  [delAngForFusion, innovVelPos, varInnovVelPos, velNED, posNE, posNED,
   innovMag, varInnovMag, varInnovLOS, innovLOS, losData, losPred,
   ekf_status_report_states, ekf_status_report_states]

/-- Total size in bytes of the fixed-size arrays. -/
def totalBytes (sizeof : ElemType → Nat) : Nat :=
  (fixedArrays.map (ArrayDecl.bytes sizeof)).sum

end Layout

/-! ## The filter object -/

/-- The data members of `class AttPosEKF` that the modelled operations read or
write: the parameter block (lines 94-120), the state vector, the covariance,
the history ring with its stamps, the corrected delta angle and the ring index.
The members left out are neither read nor written by these operations. -/
structure AttPosEKF where
  covTimeStepMax : Flt
  covDelAngMax : Flt
  rngFinderPitch : Flt
  a1 : Flt
  a2 : Flt
  a3 : Flt
  yawVarScale : Flt
  windVelSigma : Flt
  dAngBiasSigma : Flt
  dVelBiasSigma : Flt
  magEarthSigma : Flt
  magBodySigma : Flt
  gndHgtSigma : Flt
  optScaleSigma : Flt
  vneSigma : Flt
  vdSigma : Flt
  posNeSigma : Flt
  posDSigma : Flt
  magMeasurementSigma : Flt
  airspeedMeasurementSigma : Flt
  gyroProcessNoise : Flt
  accelProcessNoise : Flt
  EAS2TAS : Flt
  P : Fin n_states → Fin n_states → Flt
  states : Fin n_states → Flt
  storedStates : Fin n_storedStates → Fin data_buffer_size → Flt
  statetimeStamp : Fin data_buffer_size → Nat
  correctedDelAng : Vector3f
  storeIndex : Nat

/-- The body of `AttPosEKF::InitialiseParameters` (lines 122-151): one
assignment of a literal to each tunable, in source order.  Each `float` literal
is stored as its binary32 value; the literals of `optScaleSigma` and
`magMeasurementSigma` have no `f` suffix in the source, so they are `double`
literals converted to `float` by the assignment. -/
def InitialiseParameters (s : AttPosEKF) : AttPosEKF :=
  { s with
    covTimeStepMax := toFloat 0.07
    covDelAngMax := toFloat 0.02
    rngFinderPitch := toFloat 0.0
    a1 := toFloat 0.0
    a2 := toFloat 0.0
    a3 := toFloat 0.0
    EAS2TAS := toFloat 1.0
    yawVarScale := toFloat 1.0
    windVelSigma := toFloat 0.1
    dAngBiasSigma := toFloat 5.0e-7
    dVelBiasSigma := toFloat 1e-4
    magEarthSigma := toFloat 3.0e-4
    magBodySigma := toFloat 3.0e-4
    gndHgtSigma := toFloat 0.02
    optScaleSigma := toFloat (toDouble 1e-4)
    vneSigma := toFloat 0.2
    vdSigma := toFloat 0.3
    posNeSigma := toFloat 2.0
    posDSigma := toFloat 2.0
    magMeasurementSigma := toFloat (toDouble 0.05)
    airspeedMeasurementSigma := toFloat 1.4
    gyroProcessNoise := toFloat 1.4544411e-2
    accelProcessNoise := toFloat 0.5 }

/-- The 23 tunables of the parameter block, in declaration order (lines 94-120). -/
def tunables (s : AttPosEKF) : List Flt :=
  [s.covTimeStepMax, s.covDelAngMax, s.rngFinderPitch, s.a1, s.a2, s.a3,
   s.yawVarScale, s.windVelSigma, s.dAngBiasSigma, s.dVelBiasSigma,
   s.magEarthSigma, s.magBodySigma, s.gndHgtSigma, s.optScaleSigma,
   s.vneSigma, s.vdSigma, s.posNeSigma, s.posDSigma,
   s.magMeasurementSigma, s.airspeedMeasurementSigma,
   s.gyroProcessNoise, s.accelProcessNoise, s.EAS2TAS]

/-- The fifteen noise tunables: process-noise sigmas, measurement sigmas and
the two IMU process noises. -/
def noiseTunables : List (AttPosEKF → Flt) :=
  [AttPosEKF.windVelSigma, AttPosEKF.dAngBiasSigma, AttPosEKF.dVelBiasSigma,
   AttPosEKF.magEarthSigma, AttPosEKF.magBodySigma, AttPosEKF.gndHgtSigma,
   AttPosEKF.optScaleSigma, AttPosEKF.vneSigma, AttPosEKF.vdSigma,
   AttPosEKF.posNeSigma, AttPosEKF.posDSigma, AttPosEKF.magMeasurementSigma,
   AttPosEKF.airspeedMeasurementSigma, AttPosEKF.gyroProcessNoise,
   AttPosEKF.accelProcessNoise]

/-- The scale factors and covariance-prediction thresholds. -/
def scaleTunables : List (AttPosEKF → Flt) :=
  [AttPosEKF.yawVarScale, AttPosEKF.EAS2TAS, AttPosEKF.covTimeStepMax,
   AttPosEKF.covDelAngMax]

/-- A filter object whose members are all zero. -/
def zeroFilter : AttPosEKF where
  covTimeStepMax := Flt.fin 0
  covDelAngMax := Flt.fin 0
  rngFinderPitch := Flt.fin 0
  a1 := Flt.fin 0
  a2 := Flt.fin 0
  a3 := Flt.fin 0
  yawVarScale := Flt.fin 0
  windVelSigma := Flt.fin 0
  dAngBiasSigma := Flt.fin 0
  dVelBiasSigma := Flt.fin 0
  magEarthSigma := Flt.fin 0
  magBodySigma := Flt.fin 0
  gndHgtSigma := Flt.fin 0
  optScaleSigma := Flt.fin 0
  vneSigma := Flt.fin 0
  vdSigma := Flt.fin 0
  posNeSigma := Flt.fin 0
  posDSigma := Flt.fin 0
  magMeasurementSigma := Flt.fin 0
  airspeedMeasurementSigma := Flt.fin 0
  gyroProcessNoise := Flt.fin 0
  accelProcessNoise := Flt.fin 0
  EAS2TAS := Flt.fin 0
  P := fun _ _ => Flt.fin 0
  states := fun _ => Flt.fin 0
  storedStates := fun _ _ => Flt.fin 0
  statetimeStamp := fun _ => 0
  correctedDelAng := ⟨Flt.fin 0, Flt.fin 0, Flt.fin 0⟩
  storeIndex := 0

/-- A filter object whose `float` members are all NaN, as uninitialised memory
may be. -/
def nanFilter : AttPosEKF where
  covTimeStepMax := Flt.nan
  covDelAngMax := Flt.nan
  rngFinderPitch := Flt.nan
  a1 := Flt.nan
  a2 := Flt.nan
  a3 := Flt.nan
  yawVarScale := Flt.nan
  windVelSigma := Flt.nan
  dAngBiasSigma := Flt.nan
  dVelBiasSigma := Flt.nan
  magEarthSigma := Flt.nan
  magBodySigma := Flt.nan
  gndHgtSigma := Flt.nan
  optScaleSigma := Flt.nan
  vneSigma := Flt.nan
  vdSigma := Flt.nan
  posNeSigma := Flt.nan
  posDSigma := Flt.nan
  magMeasurementSigma := Flt.nan
  airspeedMeasurementSigma := Flt.nan
  gyroProcessNoise := Flt.nan
  accelProcessNoise := Flt.nan
  EAS2TAS := Flt.nan
  P := fun _ _ => Flt.nan
  states := fun _ => Flt.nan
  storedStates := fun _ _ => Flt.nan
  statetimeStamp := fun _ => 7
  correctedDelAng := ⟨Flt.nan, Flt.nan, Flt.nan⟩
  storeIndex := 49

/-! ## The history ring (estimator.h, lines 275-289) -/

/-- The 27-long extended state written to the ring: the 24 states followed by
the corrected delta-angle triple. -/
def extendedState (s : AttPosEKF) (i : Fin n_storedStates) : Flt :=
  if h : i.val < n_states then s.states ⟨i.val, h⟩
  else if i.val = n_states then s.correctedDelAng.x
  else if i.val = n_states + 1 then s.correctedDelAng.y
  else s.correctedDelAng.z

/-- Modelled from the spec: the body of `AttPosEKF::StoreStates`, which the
header only declares (`void StoreStates(uint64_t timestamp_ms);`, line 276).
It writes the current 24 states plus the corrected delta-angle triple into slot
`storeIndex`, stamps the slot with the timestamp and advances `storeIndex`
modulo 50.  The stamp array is declared `uint32_t statetimeStamp[...]` (line
163), so the stored stamp is the 64-bit argument reduced modulo `2 ^ 32`.  An
index outside the ring has no defined behaviour and yields `none`. -/
def StoreStates (s : AttPosEKF) (timestamp_ms : Nat) : Option AttPosEKF :=
  if h : s.storeIndex < data_buffer_size then
    some { s with
      storedStates := fun i j =>
        if j = ⟨s.storeIndex, h⟩ then extendedState s i else s.storedStates i j
      statetimeStamp := fun j =>
        if j = ⟨s.storeIndex, h⟩ then timestamp_ms % 2 ^ 32 else s.statetimeStamp j
      storeIndex := (s.storeIndex + 1) % data_buffer_size }
  else none

/-- Absolute difference of two unsigned millisecond counts. -/
def timeDelta (msec stamp : Nat) : Nat :=
  if msec > stamp then msec - stamp else stamp - msec

/-- Modelled from the spec: the slot search of `RecallStates`, whose body the
header does not contain: the ring slot whose stamp has the minimum absolute
difference from `msec` (the first such slot in index order). -/
def closestSlot (stamp : Fin data_buffer_size → Nat) (msec : Nat) : Fin data_buffer_size :=
  (List.finRange data_buffer_size).foldl
    (fun best j => if timeDelta msec (stamp j) < timeDelta msec (stamp best) then j else best)
    ⟨0, by decide⟩

/-- One step of the copy loop of `RecallStates`: a valid stored value is copied
to the caller's buffer, an invalid one is counted and the buffer left alone. -/
def recallStep (entry : Fin n_storedStates → Flt)
    (acc : (Fin n_storedStates → Flt) × Int) (i : Fin n_storedStates) :
    (Fin n_storedStates → Flt) × Int :=
  if isfinite (entry i) then (Function.update acc.1 i (entry i), acc.2)
  else (acc.1, acc.2 + 1)

/-- Modelled from the spec: the body of `AttPosEKF::RecallStates`, which the
header only declares and documents (lines 278-289).  It takes the stored entry
whose stamp is closest to `msec`, copies each valid (finite) state of it into
the caller's buffer, leaves the buffer untouched where the stored state is
invalid, and returns the number of invalid states.  The result is the caller's
buffer after the call together with the returned `int`. -/
def RecallStates (s : AttPosEKF) (statesForFusion : Fin n_storedStates → Flt) (msec : Nat) :
    (Fin n_storedStates → Flt) × Int :=
  (List.finRange n_storedStates).foldl
    (recallStep (fun i => s.storedStates i (closestSlot s.statetimeStamp msec)))
    (statesForFusion, 0)

/-- A ring in which slot 3 (stamp 1000) holds NaN in state 5 and plus infinity in
state 26, every other slot being stamped 0 and holding zeros. -/
def demoRing : AttPosEKF :=
  { zeroFilter with
    storedStates := fun i j =>
      if j.val = 3 then
        (if i.val = 5 then Flt.nan else if i.val = 26 then Flt.pinf else Flt.fin 2)
      else Flt.fin 0
    statetimeStamp := fun j => if j.val = 3 then 1000 else 0 }

/-- A caller's buffer holding the value 9 in every slot. -/
def demoBuffer : Fin n_storedStates → Flt := fun _ => Flt.fin 9

/-! ## Auxiliary facts -/

theorem closest_fold_min (δ : Fin data_buffer_size → Nat) (l : List (Fin data_buffer_size))
    (b : Fin data_buffer_size) :
    δ (l.foldl (fun best j => if δ j < δ best then j else best) b) ≤ δ b ∧
    ∀ j ∈ l, δ (l.foldl (fun best j => if δ j < δ best then j else best) b) ≤ δ j := by
  induction l generalizing b with
  | nil => simp
  | cons a l ih =>
    simp only [List.foldl_cons, List.mem_cons, forall_eq_or_imp]
    by_cases h : δ a < δ b
    · simp only [h, if_true]
      obtain ⟨h1, h2⟩ := ih a
      exact ⟨le_trans h1 (le_of_lt h), h1, h2⟩
    · simp only [h, if_false]
      obtain ⟨h1, h2⟩ := ih b
      exact ⟨h1, le_trans h1 (not_lt.mp h), h2⟩

theorem closestSlot_min (stamp : Fin data_buffer_size → Nat) (msec : Nat)
    (j : Fin data_buffer_size) :
    timeDelta msec (stamp (closestSlot stamp msec)) ≤ timeDelta msec (stamp j) :=
  (closest_fold_min (fun j => timeDelta msec (stamp j)) (List.finRange data_buffer_size)
    ⟨0, by decide⟩).2 j (List.mem_finRange j)

theorem timeDelta_eq_abs (msec stamp : Nat) :
    (timeDelta msec stamp : ℤ) = |(msec : ℤ) - (stamp : ℤ)| := by
  unfold timeDelta
  split_ifs with h
  · rw [abs_of_nonneg (by omega)]; omega
  · rw [abs_of_nonpos (by omega)]; omega

theorem recallStep_buffer (entry : Fin n_storedStates → Flt)
    (acc : (Fin n_storedStates → Flt) × Int) (a i : Fin n_storedStates) :
    (recallStep entry acc a).1 i =
      if i = a ∧ isfinite (entry i) = true then entry i else acc.1 i := by
  unfold recallStep
  by_cases ha : i = a
  · subst ha
    by_cases hf : isfinite (entry i) = true <;> simp [hf]
  · by_cases hf : isfinite (entry a) = true <;> simp [hf, ha, Function.update_noteq ha]

theorem recall_fold_buffer (entry : Fin n_storedStates → Flt) (l : List (Fin n_storedStates))
    (acc : (Fin n_storedStates → Flt) × Int) (i : Fin n_storedStates) :
    (l.foldl (recallStep entry) acc).1 i =
      if i ∈ l ∧ isfinite (entry i) = true then entry i else acc.1 i := by
  induction l generalizing acc with
  | nil => simp
  | cons a l ih =>
    rw [List.foldl_cons, ih, recallStep_buffer]
    by_cases ha : i = a
    · subst ha
      by_cases hl : i ∈ l <;> by_cases hf : isfinite (entry i) = true <;> simp [hl, hf]
    · by_cases hl : i ∈ l <;> by_cases hf : isfinite (entry i) = true <;> simp [hl, ha, hf]

theorem recall_fold_count (entry : Fin n_storedStates → Flt) (l : List (Fin n_storedStates))
    (acc : (Fin n_storedStates → Flt) × Int) :
    (l.foldl (recallStep entry) acc).2 =
      acc.2 + ((l.filter (fun i => !isfinite (entry i))).length : Int) := by
  induction l generalizing acc with
  | nil => simp
  | cons a l ih =>
    rw [List.foldl_cons, ih]
    by_cases hf : isfinite (entry a) = true
    · simp [hf, recallStep]
    · simp [hf, recallStep]; ring

theorem card_invalid_eq (entry : Fin n_storedStates → Flt) :
    (Finset.univ.filter (fun i => isfinite (entry i) = false)).card =
      ((List.finRange n_storedStates).filter (fun i => !isfinite (entry i))).length := by
  have h : (Finset.univ : Finset (Fin n_storedStates)).val = (List.finRange n_storedStates) := rfl
  rw [Finset.card, Finset.filter_val, h, Multiset.filter_coe, Multiset.coe_card]
  congr 1
  apply List.filter_congr
  intro i _
  cases isfinite (entry i) <;> rfl

/-! ## Evaluation of the literal conversion -/

theorem mkRat_pow2 (m : ℕ) (e : ℤ) :
    mkRat (((m * 2 ^ e.toNat : ℕ) : ℤ)) (2 ^ (-e).toNat) = (m : ℚ) * 2 ^ e := by
  rw [Rat.mkRat_eq_div]
  push_cast
  rcases le_total 0 e with h | h
  · obtain ⟨k, rfl⟩ := Int.eq_ofNat_of_zero_le h
    simp
  · obtain ⟨k, rfl⟩ := Int.exists_eq_neg_ofNat h
    simp [zpow_neg]
    ring

theorem roundBinary_eq (p : ℕ) (emin : ℤ) (fuel : ℕ) (q : ℚ) (n d m : ℕ) (e : ℤ)
    (hn : q.num = (n : ℤ)) (hpos : 0 < n) (hd : q.den = d)
    (he : ulpExp p n d fuel (emin - ((p : ℤ) - 1)) = e) (hm : mantissa n d e = m) :
    roundBinary p emin fuel q = (m : ℚ) * 2 ^ e := by
  have hs : (n : ℤ).sign = 1 := Int.sign_eq_one_of_pos (by exact_mod_cast hpos)
  unfold roundBinary
  simp only [hn, hd, Int.natAbs_ofNat, he, hm, hs, one_mul]
  exact mkRat_pow2 m e

set_option maxRecDepth 100000 in
theorem toFloat_eq (q : ℚ) (n d m : ℕ) (e : ℤ)
    (hn : q.num = (n : ℤ)) (hpos : 0 < n) (hd : q.den = d)
    (he : ulpExp 24 n d 300 (-126 - (((24 : ℕ) : ℤ) - 1)) = e) (hm : mantissa n d e = m)
    (hlt : (m : ℚ) * 2 ^ e < 2 ^ 128) :
    toFloat q = Flt.fin ((m : ℚ) * 2 ^ e) := by
  have hr : roundBinary 24 (-126) 300 q = (m : ℚ) * 2 ^ e :=
    roundBinary_eq 24 (-126) 300 q n d m e hn hpos hd he hm
  have h0 : (0 : ℚ) ≤ (m : ℚ) * 2 ^ e := by positivity
  have h128 : (0 : ℚ) < 2 ^ 128 := by positivity
  unfold toFloat
  simp only [hr]
  rw [if_neg (not_le.mpr hlt), if_neg (by intro h; linarith)]

theorem toFloat_zero : toFloat 0.0 = Flt.fin 0 := by
  have h : (0.0 : ℚ) = 0 := by norm_num
  rw [h]
  unfold toFloat roundBinary
  simp only [Rat.num_zero, Int.sign_zero, zero_mul, Rat.zero_mkRat]
  norm_num

theorem toFloat_lit_0_07 : toFloat 0.07 = Flt.fin (9395241 / 2 ^ 27) := by
  rw [toFloat_eq 0.07 7 100 9395241 (-27) (by norm_num) (by norm_num)
    (by norm_num) (by decide) (by decide) (by norm_num)]
  norm_num

theorem toFloat_lit_0_02 : toFloat 0.02 = Flt.fin (10737418 / 2 ^ 29) := by
  rw [toFloat_eq 0.02 1 50 10737418 (-29) (by norm_num) (by norm_num)
    (by norm_num) (by decide) (by decide) (by norm_num)]
  norm_num

theorem toFloat_lit_1_0 : toFloat 1.0 = Flt.fin (1) := by
  rw [toFloat_eq 1.0 1 1 8388608 (-23) (by norm_num) (by norm_num)
    (by norm_num) (by decide) (by decide) (by norm_num)]
  norm_num

theorem toFloat_lit_0_1 : toFloat 0.1 = Flt.fin (13421773 / 2 ^ 27) := by
  rw [toFloat_eq 0.1 1 10 13421773 (-27) (by norm_num) (by norm_num)
    (by norm_num) (by decide) (by decide) (by norm_num)]
  norm_num

theorem toFloat_lit_5_0em7 : toFloat 5.0e-7 = Flt.fin (8796093 / 2 ^ 44) := by
  rw [toFloat_eq 5.0e-7 1 2000000 8796093 (-44) (by norm_num) (by norm_num)
    (by norm_num) (by decide) (by decide) (by norm_num)]
  norm_num

theorem toFloat_lit_1em4 : toFloat 1e-4 = Flt.fin (13743895 / 2 ^ 37) := by
  rw [toFloat_eq 1e-4 1 10000 13743895 (-37) (by norm_num) (by norm_num)
    (by norm_num) (by decide) (by decide) (by norm_num)]
  norm_num

theorem toFloat_lit_3_0em4 : toFloat 3.0e-4 = Flt.fin (10307922 / 2 ^ 35) := by
  rw [toFloat_eq 3.0e-4 3 10000 10307922 (-35) (by norm_num) (by norm_num)
    (by norm_num) (by decide) (by decide) (by norm_num)]
  norm_num

theorem toFloat_lit_0_2 : toFloat 0.2 = Flt.fin (13421773 / 2 ^ 26) := by
  rw [toFloat_eq 0.2 1 5 13421773 (-26) (by norm_num) (by norm_num)
    (by norm_num) (by decide) (by decide) (by norm_num)]
  norm_num

theorem toFloat_lit_0_3 : toFloat 0.3 = Flt.fin (10066330 / 2 ^ 25) := by
  rw [toFloat_eq 0.3 3 10 10066330 (-25) (by norm_num) (by norm_num)
    (by norm_num) (by decide) (by decide) (by norm_num)]
  norm_num

theorem toFloat_lit_2_0 : toFloat 2.0 = Flt.fin (2) := by
  rw [toFloat_eq 2.0 2 1 8388608 (-22) (by norm_num) (by norm_num)
    (by norm_num) (by decide) (by decide) (by norm_num)]
  norm_num

theorem toFloat_lit_1_4 : toFloat 1.4 = Flt.fin (11744051 / 2 ^ 23) := by
  rw [toFloat_eq 1.4 7 5 11744051 (-23) (by norm_num) (by norm_num)
    (by norm_num) (by decide) (by decide) (by norm_num)]
  norm_num

theorem toFloat_lit_1_4544411em2 : toFloat 1.4544411e-2 = Flt.fin (15616942 / 2 ^ 30) := by
  rw [toFloat_eq 1.4544411e-2 14544411 1000000000 15616942 (-30) (by norm_num) (by norm_num)
    (by norm_num) (by decide) (by decide) (by norm_num)]
  norm_num

theorem toFloat_lit_0_5 : toFloat 0.5 = Flt.fin (1 / 2) := by
  rw [toFloat_eq 0.5 1 2 8388608 (-24) (by norm_num) (by norm_num)
    (by norm_num) (by decide) (by decide) (by norm_num)]
  norm_num

set_option maxRecDepth 100000 in
theorem toDouble_lit_1em4 : toDouble 1e-4 = 7378697629483821 / 2 ^ 66 := by
  unfold toDouble
  rw [roundBinary_eq 53 (-1022) 2200 1e-4 1 10000 7378697629483821 (-66) (by norm_num)
    (by norm_num) (by norm_num) (by decide) (by decide)]
  norm_num

theorem toFloat_double_lit_1em4 : toFloat (toDouble 1e-4) = Flt.fin (13743895 / 2 ^ 37) := by
  rw [toDouble_lit_1em4, toFloat_eq (7378697629483821 / 2 ^ 66) 7378697629483821 73786976294838206464 13743895 (-37)
    (by norm_num) (by norm_num) (by norm_num) (by decide) (by decide) (by norm_num)]
  norm_num

set_option maxRecDepth 100000 in
theorem toDouble_lit_0_05 : toDouble 0.05 = 3602879701896397 / 2 ^ 56 := by
  unfold toDouble
  rw [roundBinary_eq 53 (-1022) 2200 0.05 1 20 7205759403792794 (-57) (by norm_num)
    (by norm_num) (by norm_num) (by decide) (by decide)]
  norm_num

theorem toFloat_double_lit_0_05 : toFloat (toDouble 0.05) = Flt.fin (13421773 / 2 ^ 28) := by
  rw [toDouble_lit_0_05, toFloat_eq (3602879701896397 / 2 ^ 56) 3602879701896397 72057594037927936 13421773 (-28)
    (by norm_num) (by norm_num) (by norm_num) (by decide) (by decide) (by norm_num)]
  norm_num

/-! ## Parameters -/

/-- C1: for every prior filter state, after `InitialiseParameters` the
covariance-prediction trigger thresholds hold the defaults 0.07 (seconds) and
0.02 (radians) as `float` values: `covTimeStepMax` is the binary32 value of
0.07, namely 9395241 / 2^27 (bit pattern 0x3d8f5c29), and `covDelAngMax` is the
binary32 value of 0.02, namely 5368709 / 2^28 (bit pattern 0x3ca3d70a); each
lies within half a unit in the last place of its decimal. -/
theorem InitialiseParameters_cov_thresholds (s : AttPosEKF) :
    (InitialiseParameters s).covTimeStepMax = toFloat (7 / 100) ∧
    (InitialiseParameters s).covTimeStepMax = Flt.fin (9395241 / 2 ^ 27) ∧
    |(9395241 / 2 ^ 27 : ℚ) - 7 / 100| ≤ 1 / 2 * (1 / 2 ^ 27) ∧
    (InitialiseParameters s).covDelAngMax = toFloat (1 / 50) ∧
    (InitialiseParameters s).covDelAngMax = Flt.fin (5368709 / 2 ^ 28) ∧
    |(5368709 / 2 ^ 28 : ℚ) - 1 / 50| ≤ 1 / 2 * (1 / 2 ^ 29) := by
  have h7 : (0.07 : ℚ) = 7 / 100 := by norm_num
  have h2 : (0.02 : ℚ) = 1 / 50 := by norm_num
  have e7 : (InitialiseParameters s).covTimeStepMax = toFloat 0.07 := by
    simp only [InitialiseParameters]
  have e2 : (InitialiseParameters s).covDelAngMax = toFloat 0.02 := by
    simp only [InitialiseParameters]
  refine ⟨by rw [e7, h7], ?_, ?_, by rw [e2, h2], ?_, ?_⟩
  · rw [e7, toFloat_lit_0_07]
  · rw [abs_le]; constructor <;> norm_num
  · rw [e2, toFloat_lit_0_02]; norm_num
  · rw [abs_le]; constructor <;> norm_num

/-- C8: `InitialiseParameters` assigns each of the 23 tunables of the parameter
block a constant: the tunables after the call are the same for any two prior
filter states, and a second call changes nothing. -/
theorem InitialiseParameters_constant (s₁ s₂ : AttPosEKF) :
    (tunables s₁).length = 23 ∧
    tunables (InitialiseParameters s₁) = tunables (InitialiseParameters s₂) ∧
    InitialiseParameters (InitialiseParameters s₁) = InitialiseParameters s₁ := by
  refine ⟨?_, ?_, ?_⟩
  · simp only [tunables, List.length_cons, List.length_nil]
  · simp only [tunables, InitialiseParameters]
  · simp only [InitialiseParameters]

/-- C9: after `InitialiseParameters`, for every prior filter state, each of the
fifteen noise tunables and each of `yawVarScale`, `EAS2TAS`, `covTimeStepMax`,
`covDelAngMax` holds a finite, strictly positive value; and for each noise
tunable the variance sigma squared is strictly positive, so that adding it to
any non-negative innovation-variance term gives a non-zero divisor. -/
theorem InitialiseParameters_positive (s : AttPosEKF) :
    (∀ f ∈ noiseTunables ++ scaleTunables,
      ∃ q : ℚ, f (InitialiseParameters s) = Flt.fin q ∧ 0 < q) ∧
    (∀ f ∈ noiseTunables,
      ∃ q : ℚ, f (InitialiseParameters s) = Flt.fin q ∧ 0 < q * q ∧
        ∀ v : ℚ, 0 ≤ v → v + q * q ≠ 0) := by
  have key : ∀ f ∈ noiseTunables ++ scaleTunables,
      ∃ q : ℚ, f (InitialiseParameters s) = Flt.fin q ∧ 0 < q := by
    intro f hf
    simp only [noiseTunables, scaleTunables, List.cons_append, List.nil_append,
      List.mem_cons, List.mem_singleton, List.not_mem_nil, or_false] at hf
    rcases hf with h | h | h | h | h | h | h | h | h | h | h | h | h | h | h | h | h | h | h <;>
      subst h <;>
      simp only [InitialiseParameters, toFloat_lit_0_07, toFloat_lit_0_02, toFloat_lit_1_0,
        toFloat_lit_0_1, toFloat_lit_5_0em7, toFloat_lit_1em4, toFloat_lit_3_0em4,
        toFloat_lit_0_2, toFloat_lit_0_3, toFloat_lit_2_0, toFloat_lit_1_4,
        toFloat_lit_1_4544411em2, toFloat_lit_0_5, toFloat_double_lit_1em4,
        toFloat_double_lit_0_05] <;>
      exact ⟨_, rfl, by norm_num⟩
  refine ⟨key, fun f hf => ?_⟩
  obtain ⟨q, hq, hpos⟩ := key f (List.mem_append_left _ hf)
  have hsq : 0 < q * q := mul_pos hpos hpos
  exact ⟨q, hq, hsq, fun v hv => ne_of_gt (add_pos_of_nonneg_of_pos hv hsq)⟩

/-- Witness for C9 on a prior state whose members are all NaN: the default
`vneSigma` is finite and positive and its variance keeps the divisor non-zero
for the innovation-variance term 0. -/
theorem InitialiseParameters_positive_witness :
    AttPosEKF.vneSigma ∈ noiseTunables ∧
    (0 : ℚ) ≤ 0 ∧
    ∃ q : ℚ, (InitialiseParameters nanFilter).vneSigma = Flt.fin q ∧ 0 < q * q ∧
      0 + q * q ≠ 0 := by
  have hm : AttPosEKF.vneSigma ∈ noiseTunables := by simp [noiseTunables]
  obtain ⟨q, hq, hsq, hdiv⟩ := (InitialiseParameters_positive nanFilter).2 _ hm
  exact ⟨hm, le_refl 0, q, hq, hsq, hdiv 0 (le_refl 0)⟩

/-! ## Constants -/

/-- C5: the physical constants of the header equal the stated values as exact
decimals: `GRAVITY_MSS = 9.80665`, `earthRate = 7.2921e-5` and
`earthRadius = 6378145`. -/
theorem physical_constants :
    GRAVITY_MSS = 9.80665 ∧ earthRate = 7.2921e-5 ∧ earthRadius = 6378145 := by
  refine ⟨?_, ?_, ?_⟩ <;> norm_num [GRAVITY_MSS, earthRate, earthRadius]

/-- C6: reading the literals as exact decimals, `deg2rad` differs from pi/180,
`rad2deg` from 180/pi and the constant `pi` from the real number pi by a
relative error below `2 ^ (-23)` each. -/
theorem angle_constants_single_precision :
    |(deg2rad : ℝ) - Real.pi / 180| / (Real.pi / 180) < 1 / 2 ^ 23 ∧
    |(rad2deg : ℝ) - 180 / Real.pi| / (180 / Real.pi) < 1 / 2 ^ 23 ∧
    |(pi : ℝ) - Real.pi| / Real.pi < 1 / 2 ^ 23 := by
  have hlo := Real.pi_gt_d20
  have hhi := Real.pi_lt_d20
  have hpos : (0 : ℝ) < Real.pi := Real.pi_pos
  refine ⟨?_, ?_, ?_⟩
  · rw [div_lt_iff₀ (by positivity), abs_lt]
    simp only [deg2rad]
    push_cast
    constructor <;> norm_num at hlo hhi ⊢ <;> linarith
  · have h1 : ((rad2deg : ℝ) - 180 / Real.pi) = (rad2deg * Real.pi - 180) / Real.pi := by
      field_simp
    have h2 : (1 : ℝ) / 2 ^ 23 * (180 / Real.pi) = (180 / 2 ^ 23) / Real.pi := by ring
    rw [div_lt_iff₀ (by positivity), h1, h2, abs_div, abs_of_pos hpos,
      div_lt_div_iff_of_pos_right hpos, abs_lt]
    simp only [rad2deg]
    push_cast
    constructor <;> norm_num at hlo hhi ⊢ <;> linarith
  · rw [div_lt_iff₀ (by positivity), abs_lt]
    simp only [pi]
    push_cast
    constructor <;> norm_num at hlo hhi ⊢ <;> linarith

/-- C10: reading both literals as exact decimals,
`|earthRadius * earthRadiusInv - 1| < 1e-6`, and an offset below 10 km that is
scaled by `earthRadiusInv` and back by `earthRadius` changes by less than
`1e-2` m. -/
theorem earthRadiusInv_reciprocal :
    |earthRadius * earthRadiusInv - 1| < 1e-6 ∧
    ∀ d : ℚ, |d| < 10000 → |d * earthRadiusInv * earthRadius - d| < 1e-2 := by
  have h2 : |earthRadius * earthRadiusInv - 1| < 1e-7 := by
    norm_num [earthRadius, earthRadiusInv, abs_lt]
  refine ⟨lt_trans h2 (by norm_num), fun d h => ?_⟩
  have e : d * earthRadiusInv * earthRadius - d = d * (earthRadius * earthRadiusInv - 1) := by
    ring
  rw [e, abs_mul]
  have := mul_lt_mul'' h h2 (abs_nonneg _) (abs_nonneg _)
  calc |d| * |earthRadius * earthRadiusInv - 1| < 10000 * 1e-7 := this
    _ < 1e-2 := by norm_num

/-- Witness for C10 at the offset 5000 m. -/
theorem earthRadiusInv_reciprocal_witness :
    |(5000 : ℚ)| < 10000 ∧ |(5000 : ℚ) * earthRadiusInv * earthRadius - 5000| < 1e-2 :=
  ⟨by norm_num, earthRadiusInv_reciprocal.2 5000 (by norm_num)⟩

/-! ## Shapes and memory -/

/-- C2: the fixed shapes: `n_states = 24`, `data_buffer_size = 50`,
`n_storedStates = 27 = n_states + 3`, `storedStates` is 27 x 50, `P` is
24 x 24, `statetimeStamp` has one stamp per ring slot (50) and each of the seven
`statesAt*` recall buffers has 27 entries. -/
theorem fixed_shapes :
    n_states = 24 ∧ data_buffer_size = 50 ∧ n_storedStates = 27 ∧
    n_storedStates = n_states + 3 ∧
    Layout.storedStates.dims = [27, 50] ∧
    Layout.P.dims = [24, 24] ∧
    Layout.statetimeStamp.dims = [data_buffer_size] ∧
    Layout.statetimeStamp.count = 50 ∧
    Layout.statesAtBuffers.map ArrayDecl.dims = List.replicate 7 [27] := by
  decide

/-- C7: with 4-byte floats and 4-byte `uint32_t`, `P` occupies 2304 bytes, the
`storedStates` ring 5400 bytes, and all fixed-size arrays of `AttPosEKF`
together (13800 bytes) stay below 30 KB. -/
theorem fixed_array_memory (sizeof : ElemType → Nat)
    (hf : sizeof ElemType.float = 4) (hu : sizeof ElemType.uint32_t = 4) :
    Layout.P.bytes sizeof = n_states * n_states * 4 ∧
    Layout.P.bytes sizeof = 2304 ∧
    Layout.storedStates.bytes sizeof = n_storedStates * data_buffer_size * 4 ∧
    Layout.storedStates.bytes sizeof = 5400 ∧
    Layout.totalBytes sizeof = 13800 ∧
    Layout.totalBytes sizeof < 30 * 1000 := by
  have hs : sizeof = fun _ => 4 := by
    funext e
    cases e <;> assumption
  subst hs
  decide

/-- Witness for C7 with every element type four bytes wide. -/
theorem fixed_array_memory_witness :
    Layout.P.bytes (fun _ => 4) = 2304 ∧
    Layout.storedStates.bytes (fun _ => 4) = 5400 ∧
    Layout.totalBytes (fun _ => 4) < 30 * 1000 :=
  have h := fixed_array_memory (fun _ => 4) rfl rfl
  ⟨h.2.1, h.2.2.2.1, h.2.2.2.2.2⟩

/-! ## History ring -/

/-- C3: with the ring index inside the ring, `StoreStates` is defined and the
stamp of the slot just written is the timestamp reduced modulo `2 ^ 32`: it
equals the timestamp when the timestamp is below `2 ^ 32`, and it differs from
the timestamp for every timestamp of `2 ^ 32` or more, so the stamp does not
hold every unsigned 64-bit millisecond count. -/
theorem StoreStates_stamp_truncated (s : AttPosEKF) (timestamp_ms : Nat)
    (hk : s.storeIndex < data_buffer_size) :
    ∃ t, StoreStates s timestamp_ms = some t ∧
      t.statetimeStamp ⟨s.storeIndex, hk⟩ = timestamp_ms % 2 ^ 32 ∧
      (timestamp_ms < 2 ^ 32 → t.statetimeStamp ⟨s.storeIndex, hk⟩ = timestamp_ms) ∧
      (2 ^ 32 ≤ timestamp_ms → t.statetimeStamp ⟨s.storeIndex, hk⟩ ≠ timestamp_ms) := by
  refine ⟨_, dif_pos hk, ?_, ?_, ?_⟩
  · simp only [if_true]
  · intro hts
    simp only [if_true]
    exact Nat.mod_eq_of_lt hts
  · intro hts
    simp only [if_true]
    have hlt : timestamp_ms % 2 ^ 32 < 2 ^ 32 := Nat.mod_lt _ (by decide)
    omega

/-- Witness for C3 at the 64-bit timestamp `2 ^ 32 + 10` with the ring index at
0: the written slot holds the stamp 10, not the timestamp. -/
theorem StoreStates_stamp_truncated_witness :
    zeroFilter.storeIndex < data_buffer_size ∧
    2 ^ 32 ≤ 2 ^ 32 + 10 ∧ 2 ^ 32 + 10 < 2 ^ 64 ∧
    ∃ t, StoreStates zeroFilter (2 ^ 32 + 10) = some t ∧
      t.statetimeStamp ⟨0, by decide⟩ = 10 ∧
      t.statetimeStamp ⟨0, by decide⟩ ≠ 2 ^ 32 + 10 := by
  obtain ⟨t, ht, hmod, _, hne⟩ :=
    StoreStates_stamp_truncated zeroFilter (2 ^ 32 + 10) (by decide)
  exact ⟨by decide, by decide, by decide, t, ht, hmod, hne (by decide)⟩

set_option maxRecDepth 100000 in
/-- Effect of the truncated stamp on recall: after three stores at
`2 ^ 32`, `2 ^ 32 + 10` and `2 ^ 32 + 20` (slots 0, 1, 2), the slot closest to
`2 ^ 32 + 10` by the stamps is slot 2, not slot 1 where that store went. -/
theorem StoreStates_truncation_misleads_recall :
    ∃ t, ((StoreStates zeroFilter (2 ^ 32)).bind
            (fun a => StoreStates a (2 ^ 32 + 10))).bind
            (fun b => StoreStates b (2 ^ 32 + 20)) = some t ∧
      t.statetimeStamp ⟨1, by decide⟩ = 10 ∧
      closestSlot t.statetimeStamp (2 ^ 32 + 10) = ⟨2, by decide⟩ :=
  ⟨_, rfl, by decide, by decide⟩

/-- C4: `RecallStates` works on the stored entry closest in time to `msec`; it
returns the number of invalid (non-finite) states of that entry, hence zero
exactly when every state of the entry is valid; it overwrites the caller's
buffer with the stored value at every valid slot and leaves the caller's buffer
unchanged at every invalid slot. -/
theorem RecallStates_spec (s : AttPosEKF) (statesForFusion : Fin n_storedStates → Flt)
    (msec : Nat) :
    (∀ j, |(msec : ℤ) - (s.statetimeStamp (closestSlot s.statetimeStamp msec) : ℤ)| ≤
        |(msec : ℤ) - (s.statetimeStamp j : ℤ)|) ∧
    (RecallStates s statesForFusion msec).2 =
      ((Finset.univ.filter (fun i =>
        isfinite (s.storedStates i (closestSlot s.statetimeStamp msec)) = false)).card : ℤ) ∧
    ((RecallStates s statesForFusion msec).2 = 0 ↔
      ∀ i, isfinite (s.storedStates i (closestSlot s.statetimeStamp msec)) = true) ∧
    (∀ i, isfinite (s.storedStates i (closestSlot s.statetimeStamp msec)) = true →
      (RecallStates s statesForFusion msec).1 i =
        s.storedStates i (closestSlot s.statetimeStamp msec)) ∧
    (∀ i, isfinite (s.storedStates i (closestSlot s.statetimeStamp msec)) = false →
      (RecallStates s statesForFusion msec).1 i = statesForFusion i) := by
  have hcount : (RecallStates s statesForFusion msec).2 =
      ((Finset.univ.filter (fun i =>
        isfinite (s.storedStates i (closestSlot s.statetimeStamp msec)) = false)).card : ℤ) := by
    rw [card_invalid_eq (fun i => s.storedStates i (closestSlot s.statetimeStamp msec))]
    unfold RecallStates
    rw [recall_fold_count]
    simp
  refine ⟨fun j => ?_, hcount, ?_, fun i hi => ?_, fun i hi => ?_⟩
  · rw [← timeDelta_eq_abs, ← timeDelta_eq_abs]
    exact_mod_cast closestSlot_min s.statetimeStamp msec j
  · rw [hcount]
    constructor
    · intro h i
      have h0 : (Finset.univ.filter (fun i =>
          isfinite (s.storedStates i (closestSlot s.statetimeStamp msec)) = false)) = ∅ := by
        rw [← Finset.card_eq_zero]
        exact_mod_cast h
      by_contra hne
      have hmem : i ∈ (Finset.univ.filter (fun i =>
          isfinite (s.storedStates i (closestSlot s.statetimeStamp msec)) = false)) := by
        simpa using hne
      rw [h0] at hmem
      exact Finset.not_mem_empty i hmem
    · intro h
      have h0 : (Finset.univ.filter (fun i =>
          isfinite (s.storedStates i (closestSlot s.statetimeStamp msec)) = false)) = ∅ := by
        apply Finset.filter_eq_empty_iff.mpr
        intro i _
        simp [h i]
      rw [h0]
      simp
  · unfold RecallStates
    rw [recall_fold_buffer]
    simp [hi, List.mem_finRange]
  · unfold RecallStates
    rw [recall_fold_buffer]
    simp [hi]

set_option maxRecDepth 100000 in
/-- Witness for C4 on `demoRing`, recalled at 990 ms: the closest slot is slot 3
(stamp 1000), two of its states are invalid, the valid state 4 is copied and the
invalid state 5 leaves the caller's value in place. -/
theorem RecallStates_spec_witness :
    closestSlot demoRing.statetimeStamp 990 = ⟨3, by decide⟩ ∧
    (RecallStates demoRing demoBuffer 990).2 = 2 ∧
    isfinite (demoRing.storedStates ⟨4, by decide⟩
      (closestSlot demoRing.statetimeStamp 990)) = true ∧
    (RecallStates demoRing demoBuffer 990).1 ⟨4, by decide⟩ =
      demoRing.storedStates ⟨4, by decide⟩ (closestSlot demoRing.statetimeStamp 990) ∧
    isfinite (demoRing.storedStates ⟨5, by decide⟩
      (closestSlot demoRing.statetimeStamp 990)) = false ∧
    (RecallStates demoRing demoBuffer 990).1 ⟨5, by decide⟩ = demoBuffer ⟨5, by decide⟩ :=
  ⟨by decide, by decide, by decide,
    (RecallStates_spec demoRing demoBuffer 990).2.2.2.1 ⟨4, by decide⟩ (by decide),
    by decide,
    (RecallStates_spec demoRing demoBuffer 990).2.2.2.2 ⟨5, by decide⟩ (by decide)⟩

end InertialNav
